import Mathlib

/-!
Verification of the hatchet worker-side action runner
(`hatchet_sdk/worker/runner/runner.py` and
`hatchet_sdk/worker/runner/run_loop_manager.py`).

The runner is modelled as a trace of primitive operations: every Python
statement that mutates the Run Ledger (the `tasks`, `contexts` and `threads`
dictionaries), puts an event on the outbound queue, or performs one of the
observable cancellation steps becomes one `RunnerOp`.  The ledger state is
recovered by folding `applyOp` over a trace, and the emitted events by
filtering the trace, so temporal claims (what happens before what) are
statements about list order and state claims are statements about the fold.
-/

namespace HatchetRunner

/-- Action types understood by `Runner.run` (from `dispatcher_pb2.ActionType`).
`UNKNOWN` stands for any other wire value, which `run` logs and drops. -/
inductive PyActionType where
  | START_STEP_RUN
  | CANCEL_STEP_RUN
  | START_GET_GROUP_KEY
  | UNKNOWN
deriving DecidableEq, Repr

/-- An inbound action, restricted to the fields the runner reads.  Optional
string fields are `""` when unset, matching protobuf string defaults (the
Python code guards with `is not None and != ""`). -/
structure Action where
  action_id : String
  step_run_id : String
  get_group_key_run_id : String
  workflow_run_id : String
  tenant_id : String
  retry_count : Nat
  action_type : PyActionType
deriving DecidableEq, Repr

/-- Lifecycle event types: `STEP_EVENT_TYPE_*` and `GROUP_KEY_EVENT_TYPE_*`
from `dispatcher_pb2`. -/
inductive EventType where
  | STEP_EVENT_TYPE_STARTED
  | STEP_EVENT_TYPE_COMPLETED
  | STEP_EVENT_TYPE_FAILED
  | GROUP_KEY_EVENT_TYPE_STARTED
  | GROUP_KEY_EVENT_TYPE_COMPLETED
  | GROUP_KEY_EVENT_TYPE_FAILED
deriving DecidableEq, Repr

/-- Outbound `ActionEvent` record put on `self.event_queue`. -/
structure ActionEvent where
  action : Action
  type : EventType
  payload : String
deriving DecidableEq, Repr

/-- A Python exception as the runner observes it: `msg` is `str(e)` (what the
f-string `f"{e}"` interpolates) and `trace` is the text produced by
`"".join(traceback.format_exception(type(e), e, e.__traceback__))`. -/
structure PyExc where
  msg : String
  trace : String
deriving DecidableEq, Repr

/-- `errorWithTraceback(message, e)` returns `f"{message}\n{trace}"`. -/
def errorWithTraceback (message : String) (e : PyExc) : String :=
  message ++ "\n" ++ e.trace

/-- A handler result as `serialize_output` distinguishes it: `none` is Python
`None`; `model j` is a pydantic `BaseModel` whose `model_dump_json()` returns
`j`; `plain d s` is any other value, where `d` is the result of `json.dumps`
(`some j` when it succeeds, `Option.none` when it raises) and `s` is the
value's `str()` form used as the fallback. -/
inductive PyValue where
  | none
  | model (dumpJson : String)
  | plain (jsonDumps : Option String) (strRepr : String)
deriving DecidableEq, Repr

/-- `Runner.serialize_output`: a `BaseModel` is dumped natively; a non-`None`
value goes through `json.dumps`, falling back to `str(output)` when that
raises; `None` yields the empty string.  The Lean function is total: no branch
of the source can escape with an exception (the `except` clause returns). -/
def serialize_output : PyValue → String
  | PyValue.model j => j
  | PyValue.plain (some j) _ => j
  | PyValue.plain Option.none s => s
  | PyValue.none => ""

/-- The per-run execution `Context`, restricted to what the runner observes:
the triggering action and the cancellation flag.  Modelled from the spec: the
`Context` class itself is outside the provided sources; per the spec it
carries the triggering Action and "a cancellation flag settable exactly once
(idempotent)" set by `context.cancel()`. -/
structure Ctx where
  action : Action
  cancel_flag : Bool
deriving DecidableEq, Repr

/-- `Runner.create_context`: builds a fresh `Context` for the action (the
collaborator clients it also receives do not affect the modelled state).  The
group-key path constructs the same object inline. -/
def create_context (action : Action) : Ctx :=
  { action := action, cancel_flag := false }

/-- Python `dict` lookup on string keys (association list with at most one
binding per key, maintained by `mapInsert`/`mapDelete`). -/
def mapLookup : List (String × α) → String → Option α
  | [], _ => Option.none
  | p :: rest, k => if p.1 = k then some p.2 else mapLookup rest k

/-- Python `del d[k]` (guarded by `if k in d`, so deleting an absent key is
modelled as the identity, which the recursive form gives for free). -/
def mapDelete : List (String × α) → String → List (String × α)
  | [], _ => []
  | p :: rest, k => if p.1 = k then mapDelete rest k else p :: mapDelete rest k

/-- Python `d[k] = v`: overwrite any previous binding. -/
def mapInsert (m : List (String × α)) (k : String) (v : α) : List (String × α) :=
  (k, v) :: mapDelete m k

/-- Python `k in d`. -/
def mapMem (m : List (String × α)) (k : String) : Bool :=
  (mapLookup m k).isSome

/-- The Run Ledger: `self.tasks`, `self.contexts` and `self.threads`.  Task
and thread values (the asyncio task object, the `threading.Thread`) do not
affect the modelled behaviour, so only their keys are tracked. -/
structure RunnerState where
  tasks : List (String × Unit)
  contexts : List (String × Ctx)
  threads : List (String × Unit)
deriving DecidableEq, Repr

/-- One observable primitive operation of the runner. -/
inductive RunnerOp where
  /-- `self.contexts[rid] = c` -/
  | insertContext (rid : String) (c : Ctx)
  /-- `self.tasks[rid] = task` -/
  | insertTask (rid : String)
  /-- `self.threads[rid] = current_thread()` -/
  | insertThread (rid : String)
  /-- `self.cleanup_run_id(rid)` -/
  | cleanup (rid : String)
  /-- `self.event_queue.put(ev)` -/
  | emit (ev : ActionEvent)
  /-- `context.cancel()` -/
  | ctxCancel (rid : String)
  /-- `await asyncio.sleep(1)` — the cancellation grace period -/
  | sleepGrace
  /-- `future.cancel()` -/
  | taskCancel (rid : String)
  /-- `logger.warning(f"Thread ... is still running after cancellation ...")` -/
  | warnThreadAlive (rid : String)
  /-- a `ctypes.pythonapi.PyThreadState_SetAsyncExc` call on thread `ident` -/
  | injectAsyncExc (ident : Nat)
  /-- `self.thread_pool.submit(lambda: None)` — the replacement worker slot -/
  | submitPoolSlot
deriving DecidableEq, Repr

/-- `Runner.cleanup_run_id`: delete the run id from `tasks`, `threads` and
`contexts`, each guarded by a membership test (so absent keys are tolerated). -/
def cleanup_run_id (st : RunnerState) (run_id : String) : RunnerState :=
  { st with
    tasks := mapDelete st.tasks run_id
    threads := mapDelete st.threads run_id
    contexts := mapDelete st.contexts run_id }

/-- `context.cancel()` sets the context's cancellation flag in place. -/
def ctxSetCancel (m : List (String × Ctx)) (rid : String) : List (String × Ctx) :=
  m.map (fun p => if p.1 = rid then (p.1, { p.2 with cancel_flag := true }) else p)

/-- Effect of one operation on the Run Ledger.  Emitting, sleeping, warning,
cancelling an asyncio task and the thread-pool operations do not touch the
ledger. -/
def applyOp (st : RunnerState) : RunnerOp → RunnerState
  | RunnerOp.insertContext rid c => { st with contexts := mapInsert st.contexts rid c }
  | RunnerOp.insertTask rid => { st with tasks := mapInsert st.tasks rid () }
  | RunnerOp.insertThread rid => { st with threads := mapInsert st.threads rid () }
  | RunnerOp.cleanup rid => cleanup_run_id st rid
  | RunnerOp.ctxCancel rid => { st with contexts := ctxSetCancel st.contexts rid }
  | RunnerOp.emit _ => st
  | RunnerOp.sleepGrace => st
  | RunnerOp.taskCancel _ => st
  | RunnerOp.warnThreadAlive _ => st
  | RunnerOp.injectAsyncExc _ => st
  | RunnerOp.submitPoolSlot => st

/-- Ledger state after running a trace. -/
def runOps (st : RunnerState) (ops : List RunnerOp) : RunnerState :=
  ops.foldl applyOp st

/-- The events a trace puts on the outbound queue, in order. -/
def opsEvents (ops : List RunnerOp) : List ActionEvent :=
  ops.filterMap (fun op =>
    match op with
    | RunnerOp.emit ev => some ev
    | _ => Option.none)

/-- Number of events of a given type in an emitted sequence. -/
def countType (evs : List ActionEvent) (t : EventType) : Nat :=
  (evs.filter (fun ev => ev.type == t)).length

/-- Terminal state of a launched asyncio task as the completion callback
observes it: `task.cancelled()` is true; or `task.result()` raises an
exception (the one the handler raised, re-raised by
`async_wrapped_action_func`); or it returns a value. -/
inductive TaskOutcome where
  | cancelled
  | raised (e : PyExc)
  | value (v : PyValue)
deriving DecidableEq, Repr

/-- `Runner.step_run_callback(action)`'s inner callback as a trace: first
`cleanup_run_id(action.step_run_id)`; then, if the task was cancelled, no
event; if `task.result()` raised `e`, one Failed event whose payload is
`str(errorWithTraceback(f"{e}", e))`; otherwise one Completed event whose
payload is `serialize_output(output)`. -/
def step_run_callback_ops (action : Action) (outcome : TaskOutcome) : List RunnerOp :=
  RunnerOp.cleanup action.step_run_id ::
    match outcome with
    | TaskOutcome.cancelled => []
    | TaskOutcome.raised e =>
        [RunnerOp.emit
          { action := action
            type := EventType.STEP_EVENT_TYPE_FAILED
            payload := errorWithTraceback e.msg e }]
    | TaskOutcome.value v =>
        [RunnerOp.emit
          { action := action
            type := EventType.STEP_EVENT_TYPE_COMPLETED
            payload := serialize_output v }]

/-- `Runner.group_key_run_callback(action)`'s inner callback: same shape as
the step callback, keyed by `get_group_key_run_id` and using the
`GROUP_KEY_EVENT_TYPE_*` event types. -/
def group_key_run_callback_ops (action : Action) (outcome : TaskOutcome) : List RunnerOp :=
  RunnerOp.cleanup action.get_group_key_run_id ::
    match outcome with
    | TaskOutcome.cancelled => []
    | TaskOutcome.raised e =>
        [RunnerOp.emit
          { action := action
            type := EventType.GROUP_KEY_EVENT_TYPE_FAILED
            payload := errorWithTraceback e.msg e }]
    | TaskOutcome.value v =>
        [RunnerOp.emit
          { action := action
            type := EventType.GROUP_KEY_EVENT_TYPE_COMPLETED
            payload := serialize_output v }]

/-- The Started event for a step run (empty payload, per the source). -/
def startedStepEvent (action : Action) : ActionEvent :=
  { action := action
    type := EventType.STEP_EVENT_TYPE_STARTED
    payload := "" }

/-- The Started event for a group-key run (empty payload, per the source). -/
def startedGroupKeyEvent (action : Action) : ActionEvent :=
  { action := action
    type := EventType.GROUP_KEY_EVENT_TYPE_STARTED
    payload := "" }

/-- A registered handler descriptor (a v2 `Step`/`RegisteredStep`): the only
field the launch protocol branches on is whether the wrapped function is a
coroutine function.  The handler body is arbitrary user code, so its terminal
behaviour is supplied externally as a `TaskOutcome`. -/
structure Step where
  is_async_function : Bool
deriving DecidableEq, Repr

/-- Run-ledger writes performed by `Runner.thread_action_func` before calling
the handler on the worker thread: record the current thread under
`step_run_id` if that is populated, else under `get_group_key_run_id` if that
is populated. -/
def thread_action_func_ops (action : Action) : List RunnerOp :=
  if action.step_run_id ≠ "" then [RunnerOp.insertThread action.step_run_id]
  else if action.get_group_key_run_id ≠ "" then
    [RunnerOp.insertThread action.get_group_key_run_id]
  else []

/-- Trace of the body of `Runner.async_wrapped_action_func`: a synchronous
handler is submitted to the thread pool and first records its worker thread
(`thread_action_func`); an async handler is awaited directly; in either case
the `finally` block runs `cleanup_run_id(run_id)`.  A raised exception is
logged and re-raised, after the `finally` cleanup.  For a task cancelled from
outside, the body is interrupted at an await point (or never runs); its only
ledger effect is the `finally` cleanup, and the thread record is not reached. -/
def async_wrapped_action_func_ops (step : Step) (action : Action) (run_id : String)
    (outcome : TaskOutcome) : List RunnerOp :=
  (match outcome with
   | TaskOutcome.cancelled => []
   | _ => if step.is_async_function then [] else thread_action_func_ops action)
  ++ [RunnerOp.cleanup run_id]

/-- `Runner.handle_start_step_run` as a trace, given the handler registry and
the eventual outcome of the launched task.  The source order is: look up
`action.action_id` in the registry (pure), build the context, insert it into
`self.contexts[action.step_run_id]`, and only then branch on the lookup: on a
hit, put a Started event, create the task, attach `step_run_callback` as the
done-callback and store the task in `self.tasks`; awaiting the task then runs
the wrapped body followed by the callback. On a miss, nothing further
happens. -/
def handle_start_step_run_ops (registry : List (String × Step)) (action : Action)
    (outcome : TaskOutcome) : List RunnerOp :=
  RunnerOp.insertContext action.step_run_id (create_context action) ::
    match mapLookup registry action.action_id with
    | Option.none => []
    | some step =>
        RunnerOp.emit (startedStepEvent action) ::
        RunnerOp.insertTask action.step_run_id ::
        (async_wrapped_action_func_ops step action action.step_run_id outcome
          ++ step_run_callback_ops action outcome)

/-- `Runner.handle_start_group_key_run` as a trace: same protocol keyed by
`get_group_key_run_id`, with the group-key event types (the context is built
inline there, before the registry branch, just as in the step path). -/
def handle_start_group_key_run_ops (registry : List (String × Step)) (action : Action)
    (outcome : TaskOutcome) : List RunnerOp :=
  RunnerOp.insertContext action.get_group_key_run_id (create_context action) ::
    match mapLookup registry action.action_id with
    | Option.none => []
    | some step =>
        RunnerOp.emit (startedGroupKeyEvent action) ::
        RunnerOp.insertTask action.get_group_key_run_id ::
        (async_wrapped_action_func_ops step action action.get_group_key_run_id outcome
          ++ group_key_run_callback_ops action outcome)

/-- Which of the fallible cancellation steps raise.  `context.cancel()` and
`future.cancel()` call into collaborator objects and may raise; `some e`
means the corresponding call raises `e` if it is reached. -/
structure CancelRaises where
  ctxCancelExc : Option PyExc
  taskCancelExc : Option PyExc
deriving DecidableEq, Repr

/-- The try-block of `Runner.handle_cancel_action`, in source order: if the
run id is in `self.contexts`, call `context.cancel()`; sleep the grace
period; if the run id is in `self.tasks`, call `future.cancel()`; if the run
id is in `self.threads`, log a warning that the thread is still running.  A
raising step aborts the rest of the try-block; the second component is the
exception that escaped it. -/
def handle_cancel_try_ops (st : RunnerState) (run_id : String) (f : CancelRaises) :
    List RunnerOp × Option PyExc :=
  if mapMem st.contexts run_id && f.ctxCancelExc.isSome then
    ([RunnerOp.ctxCancel run_id], f.ctxCancelExc)
  else
    let ops1 := if mapMem st.contexts run_id then [RunnerOp.ctxCancel run_id] else []
    let ops2 := ops1 ++ [RunnerOp.sleepGrace]
    if mapMem st.tasks run_id && f.taskCancelExc.isSome then
      (ops2 ++ [RunnerOp.taskCancel run_id], f.taskCancelExc)
    else
      let ops3 := ops2 ++ (if mapMem st.tasks run_id then [RunnerOp.taskCancel run_id] else [])
      let ops4 := ops3 ++ (if mapMem st.threads run_id then [RunnerOp.warnThreadAlive run_id] else [])
      (ops4, Option.none)

/-- `Runner.handle_cancel_action` as a trace plus the exception it
propagates: the try-block steps, then the `finally` block's
`cleanup_run_id(run_id)`, which runs whether or not a step raised. -/
def handle_cancel_action_ops (st : RunnerState) (run_id : String) (f : CancelRaises) :
    List RunnerOp × Option PyExc :=
  let t := handle_cancel_try_ops st run_id f
  (t.1 ++ [RunnerOp.cleanup run_id], t.2)

/-- `Runner.force_kill_thread` as a trace: nothing when the thread is no
longer alive; otherwise one `PyThreadState_SetAsyncExc` injection whose
return value `res` decides the rest — `res = 0` raises ValueError (caught by
the surrounding except, which logs), `res` other than 0 or 1 makes a second
`SetAsyncExc` call with exception 0 to clean up and raises SystemError
(caught, logged), and only `res = 1` reaches the
`self.thread_pool.submit(lambda: None)` that adds the replacement worker
slot.  The outer try/except means no exception ever propagates. -/
def force_kill_thread_ops (alive : Bool) (ident : Nat) (res : Nat) : List RunnerOp :=
  if !alive then []
  else if res = 0 then [RunnerOp.injectAsyncExc ident]
  else if res ≠ 1 then [RunnerOp.injectAsyncExc ident, RunnerOp.injectAsyncExc ident]
  else [RunnerOp.injectAsyncExc ident, RunnerOp.submitPoolSlot]

/-- Whether a trace ever attempts forced thread termination (an
async-exception injection). -/
def attemptsForceKill (ops : List RunnerOp) : Bool :=
  ops.any (fun op =>
    match op with
    | RunnerOp.injectAsyncExc _ => true
    | _ => false)

/-- Whether a trace ever adds a replacement worker slot to the thread pool. -/
def addsPoolSlot (ops : List RunnerOp) : Bool :=
  ops.any (fun op =>
    match op with
    | RunnerOp.submitPoolSlot => true
    | _ => false)

/-- An item on the inbound action queue: an action, or the `STOP_LOOP`
sentinel. -/
inductive Inbound where
  | act (a : Action)
  | stopLoop
deriving DecidableEq, Repr

/-- How the dispatch loop came to an end. -/
inductive LoopExit where
  /-- `break` on the `STOP_LOOP` sentinel -/
  | sentinel
  /-- the while-condition saw `self.killing` set -/
  | killingFlag
  /-- an exception escaped the loop body and aborted the loop -/
  | raised (e : PyExc)
  /-- model artifact: the finite inbound prefix was exhausted (the real
  queue would block awaiting the next item) -/
  | starved
deriving DecidableEq, Repr

/-- `WorkerActionRunLoopManager._start_action_loop`, modelled over a finite
prefix of the inbound queue.  `route a` models the call
`self.runner.run(a)`, returning `Except.error e` when that call raises.  The
loop body is `action = await self._get_action(); if action == STOP_LOOP:
break; self.runner.run(action)` with no exception handling, inside
`while not self.killing`.  Returns the actions whose routing was attempted,
in order, and how the loop exited. -/
def start_action_loop (route : Action → Except PyExc Unit) (killing : Bool) :
    List Inbound → List Action × LoopExit
  | [] => ([], LoopExit.starved)
  | x :: rest =>
    if killing then ([], LoopExit.killingFlag)
    else
      match x with
      | Inbound.stopLoop => ([], LoopExit.sentinel)
      | Inbound.act a =>
          match route a with
          | Except.ok _ =>
              let r := start_action_loop route killing rest
              (a :: r.1, r.2)
          | Except.error e => ([a], LoopExit.raised e)

/-- The empty Run Ledger (a freshly constructed `Runner`). -/
def emptyState : RunnerState :=
  { tasks := [], contexts := [], threads := [] }

/-- A concrete Start action whose `action_id` is not registered. -/
def sampleAction : Action :=
  { action_id := "ns:unknown"
    step_run_id := "r1"
    get_group_key_run_id := ""
    workflow_run_id := "w1"
    tenant_id := "t1"
    retry_count := 0
    action_type := PyActionType.START_STEP_RUN }

/-- A concrete Start action with a registered synchronous handler. -/
def echoAction : Action :=
  { sampleAction with action_id := "ns:echo", step_run_id := "r2" }

/-- A concrete action whose routing raises. -/
def boomAction : Action :=
  { sampleAction with action_id := "ns:boom", step_run_id := "rb" }

/-- A concrete action whose routing succeeds. -/
def okAction : Action :=
  { sampleAction with action_id := "ns:ok", step_run_id := "rk" }

/-- A concrete exception. -/
def boomExc : PyExc :=
  { msg := "boom", trace := "Traceback: boom" }

/-- A routing function that raises exactly on `boomAction`. -/
def routeBoom : Action → Except PyExc Unit := fun a =>
  if a.action_id = "ns:boom" then Except.error boomExc else Except.ok ()

/-- A ledger holding only a blocking-thread handle for run `"r1"`. -/
def threadState : RunnerState :=
  { tasks := [], contexts := [], threads := [("r1", ())] }

/-- Cancellation in which no collaborator call raises. -/
def noRaises : CancelRaises :=
  { ctxCancelExc := Option.none, taskCancelExc := Option.none }

theorem mapLookup_mapDelete_self (m : List (String × α)) (k : String) :
    mapLookup (mapDelete m k) k = Option.none := by
  induction m with
  | nil => rfl
  | cons p rest ih =>
      by_cases h : p.1 = k
      · simp [mapDelete, h, ih]
      · simp [mapDelete, mapLookup, h, ih]

theorem mapDelete_of_lookup_none (m : List (String × α)) (k : String)
    (h : mapLookup m k = Option.none) : mapDelete m k = m := by
  induction m with
  | nil => rfl
  | cons p rest ih =>
      by_cases hp : p.1 = k
      · simp [mapLookup, hp] at h
      · simp [mapLookup, hp] at h
        simp [mapDelete, hp, ih h]

theorem runOps_append (st : RunnerState) (l1 l2 : List RunnerOp) :
    runOps st (l1 ++ l2) = runOps (runOps st l1) l2 :=
  List.foldl_append applyOp st l1 l2

theorem opsEvents_append (l1 l2 : List RunnerOp) :
    opsEvents (l1 ++ l2) = opsEvents l1 ++ opsEvents l2 :=
  List.filterMap_append ..

theorem opsEvents_thread_ops (action : Action) :
    opsEvents (thread_action_func_ops action) = [] := by
  unfold thread_action_func_ops
  split
  · rfl
  · split <;> rfl

theorem opsEvents_wrapped_body (step : Step) (action : Action) (run_id : String)
    (outcome : TaskOutcome) :
    opsEvents (async_wrapped_action_func_ops step action run_id outcome) = [] := by
  unfold async_wrapped_action_func_ops
  rw [opsEvents_append]
  have hclean : opsEvents [RunnerOp.cleanup run_id] = [] := rfl
  rw [hclean, List.append_nil]
  cases outcome with
  | cancelled => rfl
  | raised e =>
      cases hb : step.is_async_function with
      | true => simp only [hb, if_true]; rfl
      | false =>
          simp only [hb, Bool.false_eq_true, if_false]
          exact opsEvents_thread_ops action
  | value v =>
      cases hb : step.is_async_function with
      | true => simp only [hb, if_true]; rfl
      | false =>
          simp only [hb, Bool.false_eq_true, if_false]
          exact opsEvents_thread_ops action

theorem mapMem_cleanup_self (st : RunnerState) (run_id : String) :
    mapMem (cleanup_run_id st run_id).tasks run_id = false
      ∧ mapMem (cleanup_run_id st run_id).threads run_id = false
      ∧ mapMem (cleanup_run_id st run_id).contexts run_id = false := by
  refine ⟨?_, ?_, ?_⟩ <;>
    simp [cleanup_run_id, mapMem, mapLookup_mapDelete_self]

theorem attemptsForceKill_append (l1 l2 : List RunnerOp) :
    attemptsForceKill (l1 ++ l2) = (attemptsForceKill l1 || attemptsForceKill l2) := by
  simp [attemptsForceKill, List.any_append]

theorem addsPoolSlot_append (l1 l2 : List RunnerOp) :
    addsPoolSlot (l1 ++ l2) = (addsPoolSlot l1 || addsPoolSlot l2) := by
  simp [addsPoolSlot, List.any_append]

/-- `sub` occurs inside `s` as a contiguous substring. -/
def strContains (s sub : String) : Prop :=
  ∃ pre post, s = pre ++ sub ++ post

/-- A concrete registered synchronous handler. -/
def echoStep : Step := { is_async_function := false }

/-- A registry holding only the echo handler. -/
def echoRegistry : List (String × Step) := [("ns:echo", echoStep)]

/-- C1: For every run that reaches a terminal state, the completion callback
(step and group-key alike) emits no event when the task was cancelled,
exactly one Failed event when awaiting the task's result raises, and exactly
one Completed event otherwise. -/
theorem callback_emits_exactly_one_terminal_event (action : Action) (outcome : TaskOutcome) :
    match outcome with
    | TaskOutcome.cancelled =>
        opsEvents (step_run_callback_ops action outcome) = []
          ∧ opsEvents (group_key_run_callback_ops action outcome) = []
    | TaskOutcome.raised _ =>
        countType (opsEvents (step_run_callback_ops action outcome))
            EventType.STEP_EVENT_TYPE_FAILED = 1
          ∧ (opsEvents (step_run_callback_ops action outcome)).length = 1
          ∧ countType (opsEvents (group_key_run_callback_ops action outcome))
              EventType.GROUP_KEY_EVENT_TYPE_FAILED = 1
          ∧ (opsEvents (group_key_run_callback_ops action outcome)).length = 1
    | TaskOutcome.value _ =>
        countType (opsEvents (step_run_callback_ops action outcome))
            EventType.STEP_EVENT_TYPE_COMPLETED = 1
          ∧ (opsEvents (step_run_callback_ops action outcome)).length = 1
          ∧ countType (opsEvents (group_key_run_callback_ops action outcome))
              EventType.GROUP_KEY_EVENT_TYPE_COMPLETED = 1
          ∧ (opsEvents (group_key_run_callback_ops action outcome)).length = 1 := by
  cases outcome with
  | cancelled => exact ⟨rfl, rfl⟩
  | raised e => exact ⟨rfl, rfl, rfl, rfl⟩
  | value v => exact ⟨rfl, rfl, rfl, rfl⟩

/-- C7: For every run whose handler raises `e`, the payload of the emitted
Failed event contains `str(e)` as a substring (in fact as a prefix, followed
by a newline and the formatted traceback). -/
theorem failed_payload_contains_exception_message (action : Action) (e : PyExc) :
    opsEvents (step_run_callback_ops action (TaskOutcome.raised e)) =
        [{ action := action
           type := EventType.STEP_EVENT_TYPE_FAILED
           payload := errorWithTraceback e.msg e }]
      ∧ strContains (errorWithTraceback e.msg e) e.msg := by
  refine ⟨rfl, "", "\n" ++ e.trace, ?_⟩
  show e.msg ++ "\n" ++ e.trace = "" ++ e.msg ++ ("\n" ++ e.trace)
  rw [String.empty_append, String.append_assoc]

/-- C8: Output serialization returns the model's native JSON for a typed
(pydantic) model, else the direct JSON encoding, falling back to the value's
string representation when encoding raises; it is a total function (the
source catches the encoding exception and returns), and the completion
callback emits a Completed event for every result value, so a serialization
fallback never turns a successful run into a failed one. -/
theorem serialize_output_total_with_fallback (j s : String) (v : PyValue) (action : Action) :
    serialize_output (PyValue.model j) = j
      ∧ serialize_output (PyValue.plain (some j) s) = j
      ∧ serialize_output (PyValue.plain Option.none s) = s
      ∧ opsEvents (step_run_callback_ops action (TaskOutcome.value v)) =
          [{ action := action
             type := EventType.STEP_EVENT_TYPE_COMPLETED
             payload := serialize_output v }] :=
  ⟨rfl, rfl, rfl, rfl⟩

/-- C10: A handler returning Python `None` serializes to the empty string —
not the string "None" and not "null" — so the Completed event emitted for
that run carries an empty payload. -/
theorem none_output_empty_payload (action : Action) :
    serialize_output PyValue.none = ""
      ∧ serialize_output PyValue.none ≠ "None"
      ∧ serialize_output PyValue.none ≠ "null"
      ∧ opsEvents (step_run_callback_ops action (TaskOutcome.value PyValue.none)) =
          [{ action := action
             type := EventType.STEP_EVENT_TYPE_COMPLETED
             payload := "" }] :=
  ⟨rfl, by decide, by decide, rfl⟩

/-- C2 counterexample: handling a Start action with an unregistered
`action_id` from the empty ledger emits zero events but does not leave the
Run Ledger unchanged — the freshly built execution context has been inserted
into the contexts map. -/
theorem unknown_action_ledger_changed_counterexample :
    opsEvents (handle_start_step_run_ops [] sampleAction (TaskOutcome.value PyValue.none)) = []
      ∧ runOps emptyState
          (handle_start_step_run_ops [] sampleAction (TaskOutcome.value PyValue.none))
          ≠ emptyState :=
  ⟨rfl, by decide⟩

/-- C2 amended: a Start action whose `action_id` is absent from the registry
produces zero events and leaves the tasks and threads maps unchanged, but
inserts the execution context into the contexts map (under `step_run_id` for
a step run, under `get_group_key_run_id` for a group-key run), an entry the
start handling does not remove. -/
theorem unknown_action_zero_events_context_inserted (registry : List (String × Step))
    (st : RunnerState) (action : Action) (outcome : TaskOutcome)
    (h : mapLookup registry action.action_id = Option.none) :
    opsEvents (handle_start_step_run_ops registry action outcome) = []
      ∧ (runOps st (handle_start_step_run_ops registry action outcome)).tasks = st.tasks
      ∧ (runOps st (handle_start_step_run_ops registry action outcome)).threads = st.threads
      ∧ (runOps st (handle_start_step_run_ops registry action outcome)).contexts
          = mapInsert st.contexts action.step_run_id (create_context action)
      ∧ opsEvents (handle_start_group_key_run_ops registry action outcome) = []
      ∧ (runOps st (handle_start_group_key_run_ops registry action outcome)).contexts
          = mapInsert st.contexts action.get_group_key_run_id (create_context action) := by
  unfold handle_start_step_run_ops handle_start_group_key_run_ops
  rw [h]
  exact ⟨rfl, rfl, rfl, rfl, rfl, rfl⟩

/-- Witness for the amended C2 at a concrete unregistered action. -/
theorem unknown_action_zero_events_witness :
    mapLookup ([] : List (String × Step)) sampleAction.action_id = Option.none
      ∧ opsEvents (handle_start_step_run_ops [] sampleAction TaskOutcome.cancelled) = []
      ∧ (runOps emptyState (handle_start_step_run_ops [] sampleAction TaskOutcome.cancelled)).tasks
          = emptyState.tasks
      ∧ (runOps emptyState (handle_start_step_run_ops [] sampleAction TaskOutcome.cancelled)).contexts
          = mapInsert emptyState.contexts sampleAction.step_run_id (create_context sampleAction) :=
  ⟨rfl,
    (unknown_action_zero_events_context_inserted [] emptyState sampleAction
      TaskOutcome.cancelled rfl).1,
    (unknown_action_zero_events_context_inserted [] emptyState sampleAction
      TaskOutcome.cancelled rfl).2.1,
    (unknown_action_zero_events_context_inserted [] emptyState sampleAction
      TaskOutcome.cancelled rfl).2.2.2.1⟩

/-- C5: For a Start step action with a registered handler, the execution
context is inserted into the Run Ledger strictly before the Started event is
emitted (the trace begins with the insertion and then the emission, and
after the insertion a lookup finds the context), and Started is the first
event emitted: the terminal Completed/Failed event of the same run comes
after it in the emitted sequence. -/
theorem context_before_started_before_terminal (registry : List (String × Step))
    (st : RunnerState) (action : Action) (outcome : TaskOutcome) (step : Step)
    (h : mapLookup registry action.action_id = some step) :
    (∃ rest, handle_start_step_run_ops registry action outcome =
        RunnerOp.insertContext action.step_run_id (create_context action) ::
          RunnerOp.emit (startedStepEvent action) :: rest)
      ∧ mapLookup (applyOp st (RunnerOp.insertContext action.step_run_id
            (create_context action))).contexts action.step_run_id
          = some (create_context action)
      ∧ opsEvents (handle_start_step_run_ops registry action outcome) =
          startedStepEvent action :: opsEvents (step_run_callback_ops action outcome) := by
  refine ⟨?_, ?_, ?_⟩
  · unfold handle_start_step_run_ops
    rw [h]
    exact ⟨_, rfl⟩
  · simp [applyOp, mapInsert, mapLookup]
  · unfold handle_start_step_run_ops
    rw [h]
    have hred : opsEvents
        (RunnerOp.insertContext action.step_run_id (create_context action) ::
          RunnerOp.emit (startedStepEvent action) ::
          RunnerOp.insertTask action.step_run_id ::
          (async_wrapped_action_func_ops step action action.step_run_id outcome
            ++ step_run_callback_ops action outcome)) =
        startedStepEvent action ::
          opsEvents (async_wrapped_action_func_ops step action action.step_run_id outcome
            ++ step_run_callback_ops action outcome) := rfl
    rw [hred, opsEvents_append, opsEvents_wrapped_body, List.nil_append]

/-- Witness for C5 at a concrete registered synchronous handler whose run
completes with a serialized result. -/
theorem context_before_started_witness :
    mapLookup echoRegistry echoAction.action_id = some echoStep
      ∧ opsEvents (handle_start_step_run_ops echoRegistry echoAction
            (TaskOutcome.value (PyValue.plain (some "\"hi\"") "hi"))) =
          startedStepEvent echoAction ::
            opsEvents (step_run_callback_ops echoAction
              (TaskOutcome.value (PyValue.plain (some "\"hi\"") "hi"))) :=
  ⟨by decide,
    (context_before_started_before_terminal echoRegistry emptyState echoAction
      (TaskOutcome.value (PyValue.plain (some "\"hi\"") "hi")) echoStep (by decide)).2.2⟩

/-- C6: Cancellation handling removes all Run Ledger entries (task handle,
thread handle, execution context) for the run id by the end, whatever the
prior state and even when `context.cancel()` or `future.cancel()` raised:
the trace always ends with the `finally` cleanup. -/
theorem cancel_removes_all_ledger_entries (st : RunnerState) (run_id : String)
    (f : CancelRaises) :
    mapMem (runOps st (handle_cancel_action_ops st run_id f).1).tasks run_id = false
      ∧ mapMem (runOps st (handle_cancel_action_ops st run_id f).1).threads run_id = false
      ∧ mapMem (runOps st (handle_cancel_action_ops st run_id f).1).contexts run_id = false := by
  have h1 : (handle_cancel_action_ops st run_id f).1
      = (handle_cancel_try_ops st run_id f).1 ++ [RunnerOp.cleanup run_id] := rfl
  rw [h1, runOps_append]
  have h2 : runOps (runOps st (handle_cancel_try_ops st run_id f).1) [RunnerOp.cleanup run_id]
      = cleanup_run_id (runOps st (handle_cancel_try_ops st run_id f).1) run_id := rfl
  rw [h2]
  exact mapMem_cleanup_self _ run_id

/-- C9: Cancelling a run id absent from all three ledger maps (one never
seen, or one already completed and cleaned up) emits zero events, propagates
no exception, and leaves the ledger unchanged; handling the same cancel a
second time is equally a no-op. -/
theorem cancel_absent_run_noop (st : RunnerState) (run_id : String) (f f2 : CancelRaises)
    (h1 : mapLookup st.tasks run_id = Option.none)
    (h2 : mapLookup st.contexts run_id = Option.none)
    (h3 : mapLookup st.threads run_id = Option.none) :
    (handle_cancel_action_ops st run_id f).2 = Option.none
      ∧ opsEvents (handle_cancel_action_ops st run_id f).1 = []
      ∧ runOps st (handle_cancel_action_ops st run_id f).1 = st
      ∧ runOps (runOps st (handle_cancel_action_ops st run_id f).1)
          (handle_cancel_action_ops (runOps st (handle_cancel_action_ops st run_id f).1)
            run_id f2).1 = st := by
  have hmc : mapMem st.contexts run_id = false := by simp [mapMem, h2]
  have hmt : mapMem st.tasks run_id = false := by simp [mapMem, h1]
  have hmth : mapMem st.threads run_id = false := by simp [mapMem, h3]
  have hops : ∀ g : CancelRaises, handle_cancel_action_ops st run_id g
      = ([RunnerOp.sleepGrace, RunnerOp.cleanup run_id], Option.none) := by
    intro g
    unfold handle_cancel_action_ops handle_cancel_try_ops
    rw [hmc, hmt, hmth]
    rfl
  have hstate : runOps st [RunnerOp.sleepGrace, RunnerOp.cleanup run_id] = st := by
    show cleanup_run_id st run_id = st
    unfold cleanup_run_id
    rw [mapDelete_of_lookup_none st.tasks run_id h1,
      mapDelete_of_lookup_none st.threads run_id h3,
      mapDelete_of_lookup_none st.contexts run_id h2]
  refine ⟨?_, ?_, ?_, ?_⟩
  · rw [hops f]
  · rw [hops f]
    rfl
  · rw [hops f]
    exact hstate
  · rw [hops f]
    show runOps (runOps st [RunnerOp.sleepGrace, RunnerOp.cleanup run_id])
        (handle_cancel_action_ops (runOps st [RunnerOp.sleepGrace, RunnerOp.cleanup run_id])
          run_id f2).1 = st
    rw [hstate, hops f2]
    exact hstate

/-- Witness for C9 at the unknown run id `"r9"` on the empty ledger. -/
theorem cancel_absent_run_noop_witness :
    mapLookup emptyState.tasks "r9" = Option.none
      ∧ (handle_cancel_action_ops emptyState "r9" noRaises).2 = Option.none
      ∧ opsEvents (handle_cancel_action_ops emptyState "r9" noRaises).1 = []
      ∧ runOps emptyState (handle_cancel_action_ops emptyState "r9" noRaises).1 = emptyState :=
  ⟨rfl,
    (cancel_absent_run_noop emptyState "r9" noRaises noRaises rfl rfl rfl).1,
    (cancel_absent_run_noop emptyState "r9" noRaises noRaises rfl rfl rfl).2.1,
    (cancel_absent_run_noop emptyState "r9" noRaises noRaises rfl rfl rfl).2.2.1⟩

theorem cancel_never_touches_pool (st : RunnerState) (run_id : String) (g : CancelRaises) :
    attemptsForceKill (handle_cancel_action_ops st run_id g).1 = false
      ∧ addsPoolSlot (handle_cancel_action_ops st run_id g).1 = false := by
  refine ⟨?_, ?_⟩ <;>
  · unfold handle_cancel_action_ops handle_cancel_try_ops
    split_ifs <;> rfl

/-- C4 counterexample: with a blocking-thread handle still present for run
`"r1"` after the grace period, cancellation handling performs no
async-exception injection and submits no replacement worker slot — the full
trace is the grace sleep, a warning that the thread is still running, and
the cleanup. -/
theorem cancel_no_force_kill_counterexample :
    mapMem threadState.threads "r1" = true
      ∧ (handle_cancel_action_ops threadState "r1" noRaises).1
          = [RunnerOp.sleepGrace, RunnerOp.warnThreadAlive "r1", RunnerOp.cleanup "r1"]
      ∧ attemptsForceKill (handle_cancel_action_ops threadState "r1" noRaises).1 = false
      ∧ addsPoolSlot (handle_cancel_action_ops threadState "r1" noRaises).1 = false := by
  refine ⟨by decide, by decide, by decide, by decide⟩

/-- C4 amended: when a blocking-thread handle for the run still exists after
the grace period, the runner only logs a warning that the thread is still
running; it performs no forced termination and adds no replacement worker
slot from the cancellation path.  `force_kill_thread` — which on a
successful injection is what would submit the replacement slot — is never
invoked by `handle_cancel_action`. -/
theorem cancel_thread_alive_warns_only (st : RunnerState) (run_id : String)
    (f g : CancelRaises) (ident : Nat)
    (hth : mapMem st.threads run_id = true)
    (h1 : f.ctxCancelExc = Option.none) (h2 : f.taskCancelExc = Option.none) :
    RunnerOp.warnThreadAlive run_id ∈ (handle_cancel_action_ops st run_id f).1
      ∧ attemptsForceKill (handle_cancel_action_ops st run_id g).1 = false
      ∧ addsPoolSlot (handle_cancel_action_ops st run_id g).1 = false
      ∧ force_kill_thread_ops true ident 1
          = [RunnerOp.injectAsyncExc ident, RunnerOp.submitPoolSlot] := by
  refine ⟨?_, (cancel_never_touches_pool st run_id g).1,
    (cancel_never_touches_pool st run_id g).2, rfl⟩
  unfold handle_cancel_action_ops handle_cancel_try_ops
  rw [h1, h2]
  simp [hth]

/-- Witness for the amended C4 at a concrete ledger with a live thread. -/
theorem cancel_thread_alive_warns_only_witness :
    mapMem threadState.threads "r1" = true
      ∧ RunnerOp.warnThreadAlive "r1" ∈ (handle_cancel_action_ops threadState "r1" noRaises).1
      ∧ attemptsForceKill (handle_cancel_action_ops threadState "r1" noRaises).1 = false
      ∧ addsPoolSlot (handle_cancel_action_ops threadState "r1" noRaises).1 = false
      ∧ force_kill_thread_ops true 7 1
          = [RunnerOp.injectAsyncExc 7, RunnerOp.submitPoolSlot] :=
  ⟨by decide,
    (cancel_thread_alive_warns_only threadState "r1" noRaises noRaises 7
      (by decide) rfl rfl).1,
    (cancel_thread_alive_warns_only threadState "r1" noRaises noRaises 7
      (by decide) rfl rfl).2.1,
    (cancel_thread_alive_warns_only threadState "r1" noRaises noRaises 7
      (by decide) rfl rfl).2.2.1,
    (cancel_thread_alive_warns_only threadState "r1" noRaises noRaises 7
      (by decide) rfl rfl).2.2.2⟩

/-- C3 counterexample: with an action whose routing raises, followed by a
second action and the stop sentinel, the loop stops at the raised error: the
second action is never routed and the exit is not the stop sentinel, so the
error was not caught and absorbed. -/
theorem route_error_terminates_loop_counterexample :
    start_action_loop routeBoom false
        [Inbound.act boomAction, Inbound.act okAction, Inbound.stopLoop]
        = ([boomAction], LoopExit.raised boomExc)
      ∧ okAction ∉ (start_action_loop routeBoom false
          [Inbound.act boomAction, Inbound.act okAction, Inbound.stopLoop]).1
      ∧ (start_action_loop routeBoom false
          [Inbound.act boomAction, Inbound.act okAction, Inbound.stopLoop]).2
          ≠ LoopExit.sentinel := by
  refine ⟨by decide, by decide, by decide⟩

/-- C3 amended: the dispatch loop routes every action ahead of the sentinel
and terminates at the sentinel when no routing call raises; but an error
raised while routing is not caught — it propagates, terminates the loop, and
later queue items are not processed. -/
theorem action_loop_sentinel_or_error_propagates
    (route : Action → Except PyExc Unit) (queue : List Action) (a : Action) (e : PyExc)
    (rest : List Inbound)
    (hok : ∀ x ∈ queue, route x = Except.ok ())
    (herr : route a = Except.error e) :
    start_action_loop route false (queue.map Inbound.act ++ [Inbound.stopLoop])
        = (queue, LoopExit.sentinel)
      ∧ start_action_loop route false (Inbound.act a :: rest) = ([a], LoopExit.raised e) := by
  constructor
  · induction queue with
    | nil => rfl
    | cons q qs ih =>
        have hq := hok q (List.mem_cons_self q qs)
        have hqs : ∀ x ∈ qs, route x = Except.ok () :=
          fun x hx => hok x (List.mem_cons_of_mem q hx)
        simp [start_action_loop, hq, ih hqs]
  · simp [start_action_loop, herr]

/-- Witness for the amended C3 at a concrete queue and routing function. -/
theorem action_loop_sentinel_witness :
    routeBoom okAction = Except.ok ()
      ∧ routeBoom boomAction = Except.error boomExc
      ∧ start_action_loop routeBoom false
          ([okAction].map Inbound.act ++ [Inbound.stopLoop])
          = ([okAction], LoopExit.sentinel)
      ∧ start_action_loop routeBoom false (Inbound.act boomAction :: [Inbound.stopLoop])
          = ([boomAction], LoopExit.raised boomExc) :=
  ⟨rfl, rfl,
    (action_loop_sentinel_or_error_propagates routeBoom [okAction] boomAction boomExc
      [Inbound.stopLoop]
      (fun x hx => by rw [List.mem_singleton] at hx; subst hx; rfl) rfl).1,
    (action_loop_sentinel_or_error_propagates routeBoom [okAction] boomAction boomExc
      [Inbound.stopLoop]
      (fun x hx => by rw [List.mem_singleton] at hx; subst hx; rfl) rfl).2⟩

end HatchetRunner
